import Mathlib

/-!
Verification of the EDUMANAGE-PRO build pipeline.

This file gives a shallow embedding of the build pipeline of the
edumanage backend (BuildService in `src/services/buildService.js`,
BuildController in `src/controllers/buildController.js`,
DownloadController in `src/controllers/downloadController.js`, and the
Build mongoose schema) and proves properties of it.

Modelling conventions:
* Timestamps are natural numbers (milliseconds); each call of the form
  new Date() inside one operation is drawn from a clock function
  indexed by call order.
* The outcome of every filesystem / child-process / object-storage call
  a pipeline stage performs is an input of the model (`StageEnv`), since
  those are calls into collaborators outside the repository.
* A mongoose `save` is modelled as appending the current in-memory
  document value to the list of persisted writes; a controller that
  returns an error response before any `save` leaves the store
  unchanged, which the embedding expresses by returning `Except.error`
  together with no new document value.
-/

namespace EduManage

deriving instance DecidableEq for Except

/-- Build lifecycle status: the `status` enum of the Build schema
(queued, processing, completed, failed, cancelled). -/
inductive BuildStatus
  | queued
  | processing
  | completed
  | failed
  | cancelled
deriving DecidableEq, Repr

/-- One entry of the `stages` array of the Build schema:
{ name, status, startedAt, completedAt, error }. -/
structure Stage where
  name : String
  status : String
  startedAt : Nat
  completedAt : Option Nat
  error : Option String
deriving DecidableEq, Repr

/-- The `metadata` subdocument of the Build schema
{ buildTime, fileSize, version, dependencies }. -/
structure BuildMeta where
  buildTime : Nat
  fileSize : Nat
  version : String
  dependencies : List String
deriving DecidableEq, Repr

/-- The Build document (mongoose model `Build`).  The `files` and
`buildLogs` fields of the schema are never written by the pipeline and
are omitted. -/
structure BuildJob where
  buildId : String
  order : String
  school : String
  user : String
  package : String
  status : BuildStatus
  progress : Nat
  stages : List Stage
  downloadUrl : Option String
  downloadCount : Nat
  lastDownloadAt : Option Nat
  error : Option String
  startedAt : Option Nat
  completedAt : Option Nat
  expiresAt : Option Nat
  createdAt : Nat
  metadata : Option BuildMeta
deriving DecidableEq, Repr

/-- The fields of the Order document that the build pipeline reads and
writes: identity, the payment/confirmation guard fields read by
`startBuild`, the package tier, the school reference, and the
`buildStatus` / `downloadUrl` / `status` fields written back by the
orchestrator. -/
structure Order where
  id : String
  orderId : String
  user : String
  paymentStatus : String
  status : String
  packageType : String
  school : Option String
  buildStatus : Option String
  downloadUrl : Option String
deriving DecidableEq, Repr

/-- A new Build document as created by `BuildService.createBuild`
together with the schema defaults: status queued, progress 0, empty
stages, downloadCount 0, `expiresAt` 30 days (in milliseconds) after
creation, and a buildId of the form BLD-(timestamp)-(random); the
random hex suffix is an input. -/
def newBuildJob (ord : Order) (schoolId userId rand : String) (t : Nat) : BuildJob :=
  { buildId := "BLD-" ++ toString t ++ "-" ++ rand,
    order := ord.id,
    school := schoolId,
    user := userId,
    package := ord.packageType,
    status := .queued,
    progress := 0,
    stages := [],
    downloadUrl := none,
    downloadCount := 0,
    lastDownloadAt := none,
    error := none,
    startedAt := none,
    completedAt := none,
    expiresAt := some (t + 30 * 24 * 60 * 60 * 1000),
    createdAt := t,
    metadata := none }

/-- `BuildService.addBuildStage`: pushes { name, status: processing,
startedAt: now } onto `stages` and saves. -/
def addBuildStage (b : BuildJob) (name : String) (t : Nat) : BuildJob :=
  { b with stages := b.stages ++
      [{ name := name, status := "processing", startedAt := t,
         completedAt := none, error := none }] }

/-- `BuildService.copyTemplate`.  The source declares
`const templatePath = path.join(this.templateDir, packageType)` and, in
the catch branch taken when `fs.access` on that directory rejects,
executes `templatePath = path.join(this.templateDir, base-system)`.
Assigning to a `const` binding throws a TypeError with message
`Assignment to constant variable.`, which propagates out of the
function, so the fallback branch always raises instead of copying the
base template.  `tierTemplateExists` is the result of the `fs.access`
probe and `copyDir` the outcome of the recursive `copyDirectory` call;
on success the resolved template directory that was copied is
returned. -/
def copyTemplate (tierTemplateExists : Bool) (copyDir : Except String Unit)
    (packageType : String) : Except String String :=
  if tierTemplateExists then
    match copyDir with
    | .ok _ => .ok ("templates/" ++ packageType)
    | .error m => .error m
  else
    .error "Assignment to constant variable."

/-- Outcomes of the collaborator calls made by one run of
`BuildService.processBuild`: the workspace mkdir, the template probe
and directory copy, configuration and database file writes, the
(swallowed) npm install, archive creation, the object-storage client,
and the post-completion epilogue (the Order and School
findByIdAndUpdate calls and the completion email, each awaited inside
the try block and able to throw; emailService.sendEmail re-throws its
failures).  `s3upload` maps (localPath, key) to the stored URL and
`signedUrl` maps (key, ttlSeconds) to a signed URL. -/
structure StageEnv where
  mkdirOk : Except String Unit
  tierTemplateExists : Bool
  copyDir : Except String Unit
  configure : Except String Unit
  database : Except String String
  npmInstall : Except String Unit
  createPackage : Except String String
  s3upload : String → String → Except String String
  signedUrl : String → Nat → String
  fileSize : Nat
  deps : List String
  orderUpdate : Except String Unit
  schoolUpdate : Except String Unit
  sendEmail : Except String Unit

/-- `BuildService.installDependencies`: a failing `npm install` is
caught, logged as a warning and swallowed, so the stage never fails. -/
def installDependencies (npmInstall : Except String Unit) : Unit :=
  match npmInstall with
  | .ok _ => ()
  | .error _ => ()

/-- `BuildService.uploadToStorage`: uploads the archive under
builds/(buildId)/school-system.zip and the seed data under
builds/(buildId)/database.json, then returns a 24-hour signed URL for
the archive key. -/
def uploadToStorage (env : StageEnv) (buildId packageFile dbFile : String) :
    Except String String :=
  match env.s3upload packageFile ("builds/" ++ buildId ++ "/school-system.zip") with
  | .error m => .error m
  | .ok _ =>
    match env.s3upload dbFile ("builds/" ++ buildId ++ "/database.json") with
    | .error m => .error m
    | .ok _ => .ok (env.signedUrl ("builds/" ++ buildId ++ "/school-system.zip") (24 * 60 * 60))

/-- The observable result of one `BuildService.processBuild` run:
every persisted write of the Build document in order, the final Build
document, the final Order document, and the value returned to the queue
worker (the download URL, or the re-raised error). -/
structure RunResult where
  snapshots : List BuildJob
  final : BuildJob
  order : Order
  result : Except String String
deriving Repr

/-- The catch block of `BuildService.processBuild`: sets status failed,
records the error message and completedAt, saves, marks the Order
buildStatus/status failed, and re-raises the error. -/
def failRun (snaps : List BuildJob) (b : BuildJob) (ord : Order)
    (msg : String) (t : Nat) : RunResult :=
  let bf : BuildJob := { b with status := .failed, error := some msg, completedAt := some t }
  { snapshots := snaps ++ [bf],
    final := bf,
    order := { ord with buildStatus := some "failed", status := "failed" },
    result := .error msg }

/-- `BuildService.processBuild` on a Build document found by
`Build.findOne`.  It unconditionally sets status processing, startedAt,
and clears `stages` (it does not reset progress, error, downloadUrl or
completedAt), then runs the six stages; each stage is recorded by
`addBuildStage` followed by a progress write of 20/40/60/80/90/100.
`completeBuildStage` exists in the source but is never invoked, so no
stage entry is ever marked completed.  The i-th new Date() call of the
run reads `clock i`.  It reads the stored Build document only once, at
dispatch; no later step consults the store.

After the completed save the source awaits, still inside the try
block: Order.findByIdAndUpdate (buildStatus/downloadUrl/status
completed), School.findByIdAndUpdate, and
emailService.sendBuildCompletionNotification (which re-throws send
failures).  If any of them throws, the catch saves the in-memory
document - already completed with progress 100 and downloadUrl set -
as failed with the captured message, and marks the Order failed
(keeping the downloadUrl written by a successful Order update).  The
final cleanupBuild swallows its own errors and cannot throw. -/
def processBuild (env : StageEnv) (clock : Nat → Nat) (b0 : BuildJob) (ord : Order) :
    RunResult :=
  let b1 : BuildJob := { b0 with status := .processing, startedAt := some (clock 0), stages := [] }
  match env.mkdirOk with
  | .error m => failRun [b1] b1 ord m (clock 1)
  | .ok _ =>
    let b2 := addBuildStage b1 "copy_template" (clock 1)
    match copyTemplate env.tierTemplateExists env.copyDir b0.package with
    | .error m => failRun [b1, b2] b2 ord m (clock 2)
    | .ok _ =>
      let b3 : BuildJob := { b2 with progress := 20 }
      let b4 := addBuildStage b3 "configuration" (clock 2)
      match env.configure with
      | .error m => failRun [b1, b2, b3, b4] b4 ord m (clock 3)
      | .ok _ =>
        let b5 : BuildJob := { b4 with progress := 40 }
        let b6 := addBuildStage b5 "database" (clock 3)
        match env.database with
        | .error m => failRun [b1, b2, b3, b4, b5, b6] b6 ord m (clock 4)
        | .ok dbFile =>
          let b7 : BuildJob := { b6 with progress := 60 }
          let b8 := addBuildStage b7 "dependencies" (clock 4)
          let _ := installDependencies env.npmInstall
          let b9 : BuildJob := { b8 with progress := 80 }
          let b10 := addBuildStage b9 "packaging" (clock 5)
          match env.createPackage with
          | .error m => failRun [b1, b2, b3, b4, b5, b6, b7, b8, b9, b10] b10 ord m (clock 6)
          | .ok packageFile =>
            let b11 : BuildJob := { b10 with progress := 90 }
            let b12 := addBuildStage b11 "upload" (clock 6)
            match uploadToStorage env b0.buildId packageFile dbFile with
            | .error m =>
                failRun [b1, b2, b3, b4, b5, b6, b7, b8, b9, b10, b11, b12] b12 ord m (clock 7)
            | .ok url =>
              let b13 : BuildJob := { b12 with progress := 100 }
              let b14 : BuildJob :=
                { b13 with
                  status := .completed,
                  completedAt := some (clock 7),
                  downloadUrl := some url,
                  metadata := some
                    { buildTime := clock 7 - clock 0,
                      fileSize := env.fileSize,
                      version := "1.0.0",
                      dependencies := env.deps } }
              let snaps := [b1, b2, b3, b4, b5, b6, b7, b8, b9, b10, b11, b12, b13, b14]
              match env.orderUpdate with
              | .error m => failRun snaps b14 ord m (clock 8)
              | .ok _ =>
                let ordC : Order :=
                  { ord with
                    buildStatus := some "completed",
                    downloadUrl := some url,
                    status := "completed" }
                match env.schoolUpdate with
                | .error m => failRun snaps b14 ordC m (clock 8)
                | .ok _ =>
                  match env.sendEmail with
                  | .error m => failRun snaps b14 ordC m (clock 8)
                  | .ok _ =>
                    { snapshots := snaps,
                      final := b14,
                      order := ordC,
                      result := .ok url }

/-- The field reset performed by `BuildController.retryBuild` once the
status guard has passed: status queued, progress 0, stages cleared,
error/startedAt/completedAt nulled.  No other field is touched. -/
def resetForRetry (b : BuildJob) : BuildJob :=
  { b with
    status := .queued, progress := 0, stages := [],
    error := none, startedAt := none, completedAt := none }

/-- `BuildController.retryBuild` on an accessible build: rejects with a
400 response unless status is failed, otherwise saves the reset
document (and re-enqueues the job). -/
def retryBuild (b : BuildJob) : Except String BuildJob :=
  if b.status = .failed then .ok (resetForRetry b)
  else .error "Only failed builds can be retried"

/-- `BuildController.cancelBuild` on an accessible build: rejects with
a 400 response unless status is queued or processing, otherwise sets
status cancelled with completedAt now and marks the Order
buildStatus/status cancelled. -/
def cancelBuild (b : BuildJob) (ord : Order) (t : Nat) :
    Except String (BuildJob × Order) :=
  if b.status = .queued ∨ b.status = .processing then
    .ok ({ b with status := .cancelled, completedAt := some t },
         { ord with buildStatus := some "cancelled", status := "cancelled" })
  else
    .error "Only queued or processing builds can be cancelled"

/-- `BuildService.incrementDownloadCount`: a findOneAndUpdate that
increments downloadCount by one and sets lastDownloadAt to now. -/
def incrementDownloadCount (now : Nat) (b : BuildJob) : BuildJob :=
  { b with downloadCount := b.downloadCount + 1, lastDownloadAt := some now }

/-- `DownloadController.downloadSystem` on an accessible build: rejects
unless status is completed and a download URL is present (a missing or
empty string URL is falsy in the source), then increments the download
counter and redirects to the stored URL.  The source never consults
`expiresAt` on this path. -/
def downloadSystem (now : Nat) (b : BuildJob) : Except String (BuildJob × String) :=
  if b.status ≠ .completed then .error "Build is not yet completed"
  else if b.downloadUrl.getD "" = "" then .error "Download URL not available"
  else .ok (incrementDownloadCount now b, b.downloadUrl.getD "")

/-- The expiry test of `DownloadController.generateNewLink`:
`build.expiresAt && new Date() > build.expiresAt`. -/
def linkExpired (now : Nat) (b : BuildJob) : Bool :=
  match b.expiresAt with
  | some e => decide (e < now)
  | none => false

/-- `DownloadController.generateNewLink` on an accessible build:
rejects unless status is completed, rejects when expired, otherwise
stores a fresh 24-hour signed URL for the archive key
builds/(buildId)/school-system.zip as the new downloadUrl. -/
def generateNewLink (signedUrl : String → Nat → String) (now : Nat) (b : BuildJob) :
    Except String BuildJob :=
  if b.status ≠ .completed then .error "Build is not yet completed"
  else if linkExpired now b then .error "Download link has expired. Please contact support."
  else .ok { b with
             downloadUrl := some (signedUrl
               ("builds/" ++ b.buildId ++ "/school-system.zip") (24 * 60 * 60)) }

/-- Response of `BuildController.startBuild`: the 200 response carrying
the new buildId, or one of its 400 responses; the duplicate response
surfaces the existing buildId (the DuplicateBuildError of the spec). -/
inductive StartResponse
  | started (buildId : String)
  | orderInvalid
  | schoolMissing
  | duplicate (existingBuildId : String)
deriving DecidableEq, Repr

/-- The order lookup of `BuildController.startBuild`:
Order.findOne({ orderId, user, payment.status completed, status confirmed }). -/
def findValidOrder (orders : List Order) (orderId userId : String) : Option Order :=
  orders.find? fun o =>
    o.orderId == orderId && o.user == userId &&
    o.paymentStatus == "completed" && o.status == "confirmed"

/-- `BuildController.startBuild`: validates the order, requires a
school, checks Build.findOne({ order }) and answers the duplicate
response without creating anything when a build already exists for the
order; otherwise `BuildService.createBuild` inserts a fresh queued
Build document and the job is enqueued.  Returns the Build collection
after the call together with the response. -/
def startBuild (builds : List BuildJob) (orders : List Order)
    (orderId userId rand : String) (t : Nat) : List BuildJob × StartResponse :=
  match findValidOrder orders orderId userId with
  | none => (builds, .orderInvalid)
  | some ord =>
    match ord.school with
    | none => (builds, .schoolMissing)
    | some schoolId =>
      match builds.find? (fun b => b.order == ord.id) with
      | some existing => (builds, .duplicate existing.buildId)
      | none =>
        let nb := newBuildJob ord schoolId userId rand t
        (builds ++ [nb], .started nb.buildId)

/-- Nonemptiness of an optional string field, as JS truthiness of the
stored value: the field is present and not the empty string. -/
def optNE (o : Option String) : Prop := o.getD "" ≠ ""

instance (o : Option String) : Decidable (optNE o) := by
  unfold optNE; infer_instance

/-- The Build record invariant stated in the data-model section of the
spec: progress 100 and a nonempty downloadUrl exactly when completed,
and a nonempty error exactly when failed. -/
def invariant (b : BuildJob) : Prop :=
  ((b.progress = 100 ∧ optNE b.downloadUrl) ↔ b.status = .completed) ∧
  (optNE b.error ↔ b.status = .failed)

instance (b : BuildJob) : Decidable (invariant b) := by
  unfold invariant; infer_instance

/-- The sequence of persisted Build writes when a cancel request is
accepted right after the k-th write of a run: the first k orchestrator
writes, then the cancel write (built from the last stored document),
then the remaining orchestrator writes.  `processBuild` reads the
stored Build document only at dispatch and never re-reads it, so its
write sequence does not depend on the concurrent cancel. -/
def writesWithCancelAfter (r : RunResult) (k t : Nat) : List BuildJob :=
  let before := r.snapshots.take k
  before ++
    (match before.getLast? with
     | some b => [{ b with status := .cancelled, completedAt := some t }]
     | none => []) ++
    r.snapshots.drop k

/-! Concrete test fixtures: a confirmed and paid order for the medium
tier, an identity clock, an environment in which every collaborator
call succeeds, and one in which the template directory copy fails. -/

def ordA : Order :=
  { id := "o1", orderId := "ORD-001", user := "u1", paymentStatus := "completed",
    status := "confirmed", packageType := "medium", school := some "s1",
    buildStatus := none, downloadUrl := none }

def tick : Nat → Nat := fun i => i

def envOK : StageEnv :=
  { mkdirOk := .ok (), tierTemplateExists := true, copyDir := .ok (),
    configure := .ok (), database := .ok "database/initial-data.json",
    npmInstall := .ok (), createPackage := .ok "builds/pkg.zip",
    s3upload := fun _ k => .ok ("https://bucket/" ++ k),
    signedUrl := fun k _ => "https://signed/" ++ k,
    fileSize := 1024, deps := ["express"],
    orderUpdate := .ok (), schoolUpdate := .ok (), sendEmail := .ok () }

def envFailCopy : StageEnv :=
  { envOK with copyDir := .error "ENOENT: no such file or directory" }

/-- An environment in which every stage succeeds but the completion
email cannot be sent. -/
def envMailFail : StageEnv :=
  { envOK with sendEmail := .error "SMTP connection refused" }

/-- The build created for `ordA` at time 0. -/
def bQ : BuildJob := newBuildJob ordA "s1" "u1" "ABC123" 0

/-- A fully successful run dispatched on `bQ`. -/
def runOK : RunResult := processBuild envOK tick bQ ordA

/-- A second dispatch of the same, by then completed, build in which
the template copy fails. -/
def runRedispatch : RunResult := processBuild envFailCopy tick runOK.final runOK.order

/-- A completed build whose 30-day expiry has passed. -/
def bExpired : BuildJob :=
  { bQ with
    status := .completed, progress := 100,
    downloadUrl := some "https://signed/old", expiresAt := some 50 }

/-- A failed build with a recorded error. -/
def bFailed : BuildJob :=
  { bQ with status := .failed, error := some "boom" }

/-- An environment in which archive creation fails. -/
def envPkgFail : StageEnv :=
  { envOK with createPackage := .error "archive stream error" }

/-- A completed, unexpired build. -/
def bCompleted : BuildJob :=
  { bQ with
    status := .completed, progress := 100,
    downloadUrl := some "https://signed/old", expiresAt := some 9999 }

/-! Theorems. -/

/-- Claim C1: with a valid paid order whose school is set up and no
existing build for the order, `startBuild` creates exactly one queued
BuildJob; a second call for the same order answers the duplicate
response surfacing the existing buildId, leaves the Build collection
unchanged, and the collection holds exactly one build for the order. -/
theorem startBuild_once_then_duplicate
    (builds : List BuildJob) (orders : List Order)
    (orderId userId rand rand2 : String) (t t2 : Nat)
    (ord : Order) (schoolId : String)
    (hord : findValidOrder orders orderId userId = some ord)
    (hschool : ord.school = some schoolId)
    (hnone : builds.find? (fun b => b.order == ord.id) = none) :
    startBuild builds orders orderId userId rand t =
      (builds ++ [newBuildJob ord schoolId userId rand t],
       .started (newBuildJob ord schoolId userId rand t).buildId) ∧
    (startBuild (builds ++ [newBuildJob ord schoolId userId rand t]) orders
        orderId userId rand2 t2).2 =
      .duplicate (newBuildJob ord schoolId userId rand t).buildId ∧
    (startBuild (builds ++ [newBuildJob ord schoolId userId rand t]) orders
        orderId userId rand2 t2).1 =
      builds ++ [newBuildJob ord schoolId userId rand t] ∧
    ((builds ++ [newBuildJob ord schoolId userId rand t]).filter
        (fun b => b.order == ord.id)).length = 1 := by
  have hfind2 : (builds ++ [newBuildJob ord schoolId userId rand t]).find?
      (fun b => b.order == ord.id) = some (newBuildJob ord schoolId userId rand t) := by
    rw [List.find?_append, hnone]
    simp [newBuildJob]
  refine ⟨?_, ?_, ?_, ?_⟩
  · simp [startBuild, hord, hschool, hnone]
  · simp [startBuild, hord, hschool, hfind2]
  · simp [startBuild, hord, hschool, hfind2]
  · rw [List.filter_append]
    have hnil : builds.filter (fun b => b.order == ord.id) = [] :=
      List.filter_eq_nil_iff.mpr (fun a ha => List.find?_eq_none.mp hnone a ha)
    rw [hnil]
    simp [newBuildJob]

/-- Witness for C1 at a concrete order and empty collection. -/
theorem startBuild_once_then_duplicate_witness :
    findValidOrder [ordA] "ORD-001" "u1" = some ordA ∧
    ordA.school = some "s1" ∧
    ([] : List BuildJob).find? (fun b => b.order == ordA.id) = none ∧
    (startBuild [] [ordA] "ORD-001" "u1" "AAA" 5).2 = .started "BLD-5-AAA" ∧
    (startBuild (startBuild [] [ordA] "ORD-001" "u1" "AAA" 5).1 [ordA]
        "ORD-001" "u1" "BBB" 9).2 = .duplicate "BLD-5-AAA" := by
  have h := startBuild_once_then_duplicate [] [ordA] "ORD-001" "u1" "AAA" "BBB" 5 9
    ordA "s1" (by decide) (by decide) (by decide)
  refine ⟨by decide, by decide, by decide, ?_, ?_⟩
  · rw [h.1]
    decide
  · have h1 := h.1
    have h2 := h.2.1
    rw [h1, h2]
    decide

/-- Claim C3 (code bug): in a fully successful concrete run the six
stages appear in the specified order and the persisted progress values
are 0,20,40,60,80,90,100 non-decreasing, but every stage entry of the
completed build still has status processing with no completedAt,
because `completeBuildStage` is never invoked by the orchestrator. -/
theorem successful_run_stages_never_completed :
    runOK.result = .ok "https://signed/builds/BLD-0-ABC123/school-system.zip" ∧
    runOK.final.status = .completed ∧
    runOK.final.stages.map Stage.name =
      ["copy_template", "configuration", "database", "dependencies", "packaging", "upload"] ∧
    (runOK.final.stages.all fun s => s.status == "processing" && s.completedAt == none) = true ∧
    runOK.snapshots.map BuildJob.progress =
      [0, 0, 20, 20, 40, 40, 60, 60, 80, 80, 90, 90, 100, 100] := by
  decide

/-- Claim C4 (code bug): whenever the tier-specific template directory
is absent, `copyTemplate` raises the TypeError caused by assigning to
the `const templatePath` binding instead of falling back to the base
template; the copy happens only when the tier directory exists. -/
theorem copyTemplate_fallback_raises :
    copyTemplate false (.ok ()) "enterprise" = .error "Assignment to constant variable." ∧
    copyTemplate false (.ok ()) "unknown-tier" = .error "Assignment to constant variable." ∧
    copyTemplate true (.ok ()) "medium" = .ok "templates/medium" := by
  decide

/-- Claim C5: if archive creation (the packaging stage) fails with a
nonempty message while the earlier stages succeed, the run ends with
status failed, the message recorded as the build error, completedAt
set, downloadUrl still unset, the Order marked buildStatus failed and
status failed, and the error re-raised to the queue worker. -/
theorem packaging_failure_isolated
    (env : StageEnv) (clock : Nat → Nat) (b : BuildJob) (ord : Order)
    (msg dbFile : String)
    (hurl : b.downloadUrl = none)
    (hmk : env.mkdirOk = .ok ())
    (htier : env.tierTemplateExists = true)
    (hcopy : env.copyDir = .ok ())
    (hconf : env.configure = .ok ())
    (hdb : env.database = .ok dbFile)
    (hpkg : env.createPackage = .error msg)
    (hmsg : msg ≠ "") :
    (processBuild env clock b ord).final.status = .failed ∧
    (processBuild env clock b ord).final.error = some msg ∧
    optNE (processBuild env clock b ord).final.error ∧
    (processBuild env clock b ord).final.completedAt = some (clock 6) ∧
    (processBuild env clock b ord).final.downloadUrl = none ∧
    (processBuild env clock b ord).order.buildStatus = some "failed" ∧
    (processBuild env clock b ord).order.status = "failed" ∧
    (processBuild env clock b ord).result = .error msg := by
  simp [processBuild, hmk, htier, hcopy, hconf, hdb, hpkg, copyTemplate, failRun,
        addBuildStage, optNE, hurl, hmsg]

/-- Witness for C5 on a concrete run with a failing archiver. -/
theorem packaging_failure_isolated_witness :
    (processBuild envPkgFail tick bQ ordA).final.status = .failed ∧
    (processBuild envPkgFail tick bQ ordA).final.error = some "archive stream error" ∧
    (processBuild envPkgFail tick bQ ordA).final.downloadUrl = none ∧
    (processBuild envPkgFail tick bQ ordA).order.status = "failed" ∧
    (processBuild envPkgFail tick bQ ordA).result = .error "archive stream error" := by
  have h := packaging_failure_isolated envPkgFail tick bQ ordA
    "archive stream error" "database/initial-data.json"
    (by decide) rfl rfl rfl rfl rfl rfl (by decide)
  exact ⟨h.1, h.2.1, h.2.2.2.2.1, h.2.2.2.2.2.2.1, h.2.2.2.2.2.2.2⟩

/-- Claim C6: retry is accepted exactly on failed builds; it resets
status to queued, progress to 0, stages to empty, and nulls error,
startedAt and completedAt, while every other field of the document is
untouched; a non-failed build is rejected. -/
theorem retry_resets_exactly_run_scoped_fields (b : BuildJob) :
    (b.status = .failed →
      retryBuild b = .ok (resetForRetry b) ∧
      (resetForRetry b).status = .queued ∧
      (resetForRetry b).progress = 0 ∧
      (resetForRetry b).stages = [] ∧
      (resetForRetry b).error = none ∧
      (resetForRetry b).startedAt = none ∧
      (resetForRetry b).completedAt = none ∧
      (resetForRetry b).buildId = b.buildId ∧
      (resetForRetry b).order = b.order ∧
      (resetForRetry b).school = b.school ∧
      (resetForRetry b).user = b.user ∧
      (resetForRetry b).package = b.package ∧
      (resetForRetry b).downloadUrl = b.downloadUrl ∧
      (resetForRetry b).downloadCount = b.downloadCount ∧
      (resetForRetry b).lastDownloadAt = b.lastDownloadAt ∧
      (resetForRetry b).expiresAt = b.expiresAt ∧
      (resetForRetry b).createdAt = b.createdAt ∧
      (resetForRetry b).metadata = b.metadata) ∧
    (b.status ≠ .failed → retryBuild b = .error "Only failed builds can be retried") := by
  constructor
  · intro h
    simp [retryBuild, resetForRetry, h]
  · intro h
    simp [retryBuild, h]

/-- Witness for C6 on a concrete failed build. -/
theorem retry_resets_exactly_run_scoped_fields_witness :
    bFailed.status = .failed ∧
    retryBuild bFailed = .ok (resetForRetry bFailed) ∧
    (resetForRetry bFailed).status = .queued ∧
    (resetForRetry bFailed).error = none ∧
    (resetForRetry bFailed).downloadCount = bFailed.downloadCount := by
  have h := (retry_resets_exactly_run_scoped_fields bFailed).1 (by decide)
  exact ⟨by decide, h.1, h.2.1, h.2.2.2.2.1, h.2.2.2.2.2.2.2.2.2.2.2.2.2.1⟩

/-- Claim C7 (code bug): `downloadSystem` never consults expiresAt: a
download request against a completed build whose expiry (as tested by
the expiry predicate used elsewhere in the same controller) has passed
is still served, and downloadCount is incremented. -/
theorem download_after_expiry_not_rejected :
    linkExpired 100 bExpired = true ∧
    downloadSystem 100 bExpired =
      .ok ({ bExpired with downloadCount := 1, lastDownloadAt := some 100 },
           "https://signed/old") := by
  decide

/-- Claim C2 counterexample: dispatching the buildId of a completed
build runs the pipeline again: the first persisted write moves the
build to processing, and with a failing template copy the completed
build ends up failed. -/
theorem dispatch_completed_build_cex :
    runOK.final.status = .completed ∧
    runRedispatch.snapshots.head?.map BuildJob.status = some .processing ∧
    runRedispatch.final.status = .failed := by
  decide

/-- Claim C8 counterexample: when a cancel request lands after the
third persisted write of a successful run, the cancel write (status
cancelled at progress 20) is followed by further orchestrator writes:
progress 40 is persisted two writes later and the run still ends with
a completed write at progress 100. -/
theorem midrun_cancel_progress_persisted_cex :
    ((writesWithCancelAfter runOK 3 77).get? 3).map BuildJob.status = some .cancelled ∧
    ((writesWithCancelAfter runOK 3 77).get? 3).map BuildJob.progress = some 20 ∧
    ((writesWithCancelAfter runOK 3 77).get? 5).map BuildJob.progress = some 40 ∧
    (writesWithCancelAfter runOK 3 77).getLast?.map BuildJob.status = some .completed ∧
    (writesWithCancelAfter runOK 3 77).getLast?.map BuildJob.progress = some 100 := by
  decide

/-- Claim C10: link regeneration succeeds exactly on a completed,
unexpired build, replacing downloadUrl with a fresh 24-hour signed URL
for the archive key of that build and changing no other field; a
non-completed build or an expired link is rejected with no write. -/
theorem generateNewLink_ok_and_rejections
    (su : String → Nat → String) (now : Nat) (b : BuildJob) :
    (b.status = .completed → linkExpired now b = false →
      generateNewLink su now b =
        .ok { b with downloadUrl := some (su ("builds/" ++ b.buildId ++ "/school-system.zip") (24 * 60 * 60)) }) ∧
    (b.status ≠ .completed →
      generateNewLink su now b = .error "Build is not yet completed") ∧
    (b.status = .completed → linkExpired now b = true →
      generateNewLink su now b = .error "Download link has expired. Please contact support.") := by
  refine ⟨fun h1 h2 => ?_, fun h1 => ?_, fun h1 h2 => ?_⟩
  · simp [generateNewLink, h1, h2]
  · simp [generateNewLink, h1]
  · simp [generateNewLink, h1, h2]

/-- Witness for C10 on a concrete completed, unexpired build. -/
theorem generateNewLink_ok_and_rejections_witness :
    bCompleted.status = .completed ∧
    linkExpired 5 bCompleted = false ∧
    generateNewLink (fun k _ => "https://signed/" ++ k) 5 bCompleted =
      .ok { bCompleted with
            downloadUrl := some "https://signed/builds/BLD-0-ABC123/school-system.zip" } := by
  have h1 : bCompleted.status = .completed := by decide
  have h2 : linkExpired 5 bCompleted = false := by decide
  have h := (generateNewLink_ok_and_rejections
    (fun k _ => "https://signed/" ++ k) 5 bCompleted).1 h1 h2
  refine ⟨h1, h2, ?_⟩
  rw [h]
  decide

/-- The epilogue condition of the amended C9 is necessary: a dispatch
of a queued build whose six stages all succeed but whose completion
email fails stores the build as failed with progress 100 and the
signed URL set, so the record invariant is violated even under the
queued-dispatch guard. -/
theorem email_failure_after_completion_breaks_invariant :
    bQ.status = .queued ∧
    (processBuild envMailFail tick bQ ordA).final.status = .failed ∧
    (processBuild envMailFail tick bQ ordA).final.progress = 100 ∧
    (processBuild envMailFail tick bQ ordA).final.downloadUrl =
      some "https://signed/builds/BLD-0-ABC123/school-system.zip" ∧
    (processBuild envMailFail tick bQ ordA).final.error = some "SMTP connection refused" ∧
    ¬ invariant (processBuild envMailFail tick bQ ordA).final := by
  decide

/-- Helper: the first persisted write of every dispatch is the build
moved to processing with startedAt set and stages cleared, whatever its
previous status was. -/
theorem processBuild_first_write (env : StageEnv) (clock : Nat → Nat)
    (b : BuildJob) (ord : Order) :
    (processBuild env clock b ord).snapshots.head? =
      some { b with status := .processing, startedAt := some (clock 0), stages := [] } := by
  unfold processBuild
  cases hm : env.mkdirOk with
  | error m => simp [failRun]
  | ok u0 =>
    cases hct : copyTemplate env.tierTemplateExists env.copyDir b.package with
    | error m => simp [failRun, hct]
    | ok p =>
      cases hcf : env.configure with
      | error m => simp [failRun, hcf]
      | ok u2 =>
        cases hdb : env.database with
        | error m => simp [failRun, hdb]
        | ok dbFile =>
          cases hpk : env.createPackage with
          | error m => simp [failRun, hpk]
          | ok packageFile =>
            cases hup : uploadToStorage env b.buildId packageFile dbFile with
            | error m => simp [failRun, hup]
            | ok url =>
              cases hoe : env.orderUpdate with
              | error m => simp [failRun, hup, hoe]
              | ok u3 =>
                cases hse : env.schoolUpdate with
                | error m => simp [failRun, hup, hoe, hse]
                | ok u4 =>
                  cases hml : env.sendEmail with
                  | error m => simp [failRun, hup, hoe, hse, hml]
                  | ok u5 => simp [hup, hoe, hse, hml]

/-- Claim C2 (amended): the request-level operations preserve terminal
statuses: cancel rejects a completed, failed or cancelled build with no
write, and retry rejects everything but failed builds, moving a failed
build to queued; however, a queue dispatch of any stored build,
including a completed or cancelled one, immediately persists it as
processing, because processBuild has no status guard. -/
theorem terminal_status_ops (b : BuildJob) (ord : Order) (env : StageEnv)
    (clock : Nat → Nat) (t : Nat) :
    (b.status = .completed ∨ b.status = .failed ∨ b.status = .cancelled →
      cancelBuild b ord t = .error "Only queued or processing builds can be cancelled") ∧
    (b.status ≠ .failed → retryBuild b = .error "Only failed builds can be retried") ∧
    (b.status = .failed →
      retryBuild b = .ok (resetForRetry b) ∧ (resetForRetry b).status = .queued) ∧
    (processBuild env clock b ord).snapshots.head? =
      some { b with status := .processing, startedAt := some (clock 0), stages := [] } := by
  refine ⟨fun h => ?_, fun h => ?_, fun h => ?_, processBuild_first_write env clock b ord⟩
  · rcases h with h | h | h <;> simp [cancelBuild, h]
  · simp [retryBuild, h]
  · simp [retryBuild, resetForRetry, h]

/-- Witness for C2 (amended) at a concrete completed build. -/
theorem terminal_status_ops_witness :
    cancelBuild bCompleted ordA 3 = .error "Only queued or processing builds can be cancelled" ∧
    retryBuild bCompleted = .error "Only failed builds can be retried" ∧
    (processBuild envOK tick bCompleted ordA).snapshots.head? =
      some { bCompleted with status := .processing, startedAt := some 0, stages := [] } := by
  have h := terminal_status_ops bCompleted ordA envOK tick 3
  refine ⟨h.1 (Or.inl (by decide)), h.2.1 (by decide), ?_⟩
  rw [h.2.2.2]
  decide

set_option maxHeartbeats 2000000 in
/-- Claim C8 (amended): a cancel request is accepted exactly while the
build is queued or processing, setting status cancelled with
completedAt now and marking the Order cancelled, and is otherwise
rejected with no write; however, the orchestrator performs no
cancellation check between stages: its write sequence is a function of
the dispatched snapshot and the stage outcomes alone, so when a cancel
write lands after any write of a fully successful run, the remaining
writes still follow and the run still ends with a completed write at
progress 100. -/
theorem cancel_semantics_and_no_cancellation_check
    (b : BuildJob) (ord : Order) (clock : Nat → Nat) (k t tcancel : Nat)
    (hk1 : 1 ≤ k) (hk2 : k ≤ 13) :
    (b.status = .queued ∨ b.status = .processing →
      cancelBuild b ord t =
        .ok ({ b with status := .cancelled, completedAt := some t },
             { ord with buildStatus := some "cancelled", status := "cancelled" })) ∧
    (¬(b.status = .queued ∨ b.status = .processing) →
      cancelBuild b ord t = .error "Only queued or processing builds can be cancelled") ∧
    ((writesWithCancelAfter (processBuild envOK clock b ord) k tcancel).get? k).map
        BuildJob.status = some .cancelled ∧
    ((writesWithCancelAfter (processBuild envOK clock b ord) k tcancel).get? 14).map
        BuildJob.status = some .completed ∧
    ((writesWithCancelAfter (processBuild envOK clock b ord) k tcancel).get? 14).map
        BuildJob.progress = some 100 := by
  refine ⟨fun h => by simp [cancelBuild, h], fun h => by simp [cancelBuild, h], ?_, ?_, ?_⟩ <;>
    interval_cases k <;>
    simp [writesWithCancelAfter, processBuild, envOK, copyTemplate, uploadToStorage,
          addBuildStage]

/-- Witness for C8 (amended) with the cancel landing after the third
write of a concrete successful run. -/
theorem cancel_semantics_and_no_cancellation_check_witness :
    cancelBuild bQ ordA 7 =
      .ok ({ bQ with status := .cancelled, completedAt := some 7 },
           { ordA with buildStatus := some "cancelled", status := "cancelled" }) ∧
    ((writesWithCancelAfter (processBuild envOK tick bQ ordA) 3 77).get? 3).map
        BuildJob.status = some .cancelled ∧
    ((writesWithCancelAfter (processBuild envOK tick bQ ordA) 3 77).get? 14).map
        BuildJob.progress = some 100 := by
  have h := cancel_semantics_and_no_cancellation_check bQ ordA tick 3 7 77
    (by decide) (by decide)
  exact ⟨h.1 (Or.inl (by decide)), h.2.2.1, h.2.2.2.2⟩

end EduManage
